import Mathlib

/-!
Shallow embedding of the baselineapp cloud-sync layer
(`src/shared/components/providers/CloudSyncGate.tsx`,
`src/state/app.store.ts`, the storage service and the app-state types),
with theorems checking the natural-language specification against it.

Conventions of the embedding:
* JS `localStorage` keys used by the sync layer are explicit fields of a
  `World` record (`Option` for keys that may be absent).
* Machine time (`Date.now()`) is an `Int` parameter.
* Asynchronous collaborator calls (network probe, Supabase, remote upsert,
  pull) are environment parameters carrying the value the call settles to;
  a thrown error is an `Except.error` carrying the failure signal.
* Remote interactions performed by a code path are reported in an effect
  list, so that "no remote call is attempted" is a statement about that
  list being empty.
-/

namespace BaselineApp

/-- Character-list prefix test, used to implement the JS
`String.prototype.includes` containment check. -/
def listLeadsWith : List Char → List Char → Bool
  | [], _ => true
  | _ :: _, [] => false
  | a :: as, b :: bs => (a == b) && listLeadsWith as bs

/-- Character-list substring containment. -/
def listContainsSub : List Char → List Char → Bool
  | pat, [] => listLeadsWith pat []
  | pat, c :: rest => listLeadsWith pat (c :: rest) || listContainsSub pat rest

/-- JS `s.includes(pat)`. -/
def strIncludes (s pat : String) : Bool :=
  listContainsSub pat.data s.data

/-- A failure signal as inspected by `isNetworkOrServerError`:
the extracted message string (`String((err as any)?.message ?? err ?? "")`)
and the numeric HTTP status, if any (`(err as any)?.status ??
(err as any)?.statusCode`; a missing or non-numeric status behaves like the
default `0`, which is outside the `[500, 600)` range, so it is modelled as
`none`). -/
structure ErrSig where
  message : String
  status : Option Int
deriving DecidableEq, Repr

/-- The message substrings tested by the `msg.includes(...)` chain of
`isNetworkOrServerError` (CloudSyncGate.tsx lines 29-38), in source order. -/
def networkErrorPatterns : List String :=
  ["failed to fetch", "err_name_not_resolved", "networkerror",
   "internal server error", "bad gateway", "service unavailable",
   "gateway timeout", "timeout", "econnrefused", "econnreset"]

/-- `isNetworkOrServerError` (CloudSyncGate.tsx lines 24-41).
`navOnline` is `navigator.onLine` at classification time. -/
def isNetworkOrServerError (navOnline : Bool) (e : ErrSig) : Bool :=
  let msg := e.message.toLower
  !navOnline
    || networkErrorPatterns.any (fun p => strIncludes msg p)
    || (match e.status with
        | some s => decide (500 ≤ s) && decide (s < 600)
        | none => false)

/-- `SYNC_LOCK_TIMEOUT` (CloudSyncGate.tsx line 22). -/
def SYNC_LOCK_TIMEOUT : Int := 5000

/-- `acquireSyncLock` (CloudSyncGate.tsx lines 43-61).
The `app.syncLock` localStorage slot is an `Option Int` timestamp; the
function returns whether acquisition succeeded together with the new slot
contents (the slot is written only on success). -/
def acquireSyncLock (now : Int) (lock : Option Int) : Bool × Option Int :=
  match lock with
  | some lockTime =>
      if now - lockTime < SYNC_LOCK_TIMEOUT then (false, some lockTime)
      else (true, some now)
  | none => (true, some now)

/-- `releaseSyncLock` (CloudSyncGate.tsx lines 63-69): removes the lock
record unconditionally. -/
def releaseSyncLock (_lock : Option Int) : Option Int := none

/-- Security settings (`SecuritySettings` in the app types). -/
structure SecuritySettings where
  biometricEnabled : Bool
  lastAuthTimestamp : Option Int
deriving DecidableEq, Repr

/-- The application state document (`AppState`): schema version plus the
optional domain fields. The schema version is an `Int` here because
documents arriving from storage or from the remote authority may carry any
version; the store normalizes it. -/
structure AppSnapshot where
  schemaVersion : Int
  welcomeSeen : Option Bool
  security : Option SecuritySettings
deriving DecidableEq, Repr

/-- What `JSON.parse` of the persisted `app_state_v1` blob can yield as far
as `loadState` inspects it: the `schemaVersion` property (absent, `null`, or
a number — absent/null modelled as `none`) and the domain fields. -/
structure StoredRecord where
  schemaVersion : Option Int
  welcomeSeen : Option Bool
  security : Option SecuritySettings
deriving DecidableEq, Repr

/-- The raw content of the `app_state_v1` localStorage key as seen by
`loadState`: absent (or empty, hence falsy), present but unparsable (the
`JSON.parse` or property access throws), or a parsed record. -/
inductive RawStored where
  | absent
  | malformed
  | record (r : StoredRecord)
deriving DecidableEq, Repr

/-- JS truthiness of the `parsed.schemaVersion` field: `undefined`, `null`
and `0` are falsy, every other number is truthy. -/
def jsTruthyVersion : Option Int → Bool
  | none => false
  | some n => n != 0

/-- `loadState` (storage service): returns `none` when the key is absent,
when parsing throws, or when `!parsed.schemaVersion`; otherwise returns the
parsed record unchanged. -/
def loadState : RawStored → Option StoredRecord
  | .absent => none
  | .malformed => none
  | .record r => if jsTruthyVersion r.schemaVersion then some r else none

/-- Sync status (`CloudStatus` in app.store.ts line 11). -/
inductive CloudStatus where
  | idle
  | syncing
  | ok
  | offline
  | error
deriving DecidableEq, Repr

/-- Cloud mode (`CloudMode` in app.store.ts line 12). -/
inductive CloudMode where
  | guest
  | cloud
deriving DecidableEq, Repr

/-- The auth identity held by the store (`user` field). -/
structure UserInfo where
  email : Option String
  name : Option String
  avatarUrl : Option String
  provider : Option String
deriving DecidableEq, Repr

/-- The all-null identity written by `setUser({email: null, ...})`. -/
def nullUser : UserInfo := ⟨none, none, none, none⟩

/-- The combined state the sync layer manipulates: the in-memory zustand
store, the `CloudSyncGate` refs, and the localStorage keys it touches. -/
structure World where
  -- in-memory store (app.store.ts)
  schemaVersion : Int
  welcomeSeen : Bool
  security : Option SecuritySettings
  user : UserInfo
  cloudMode : CloudMode
  cloudStatus : CloudStatus
  cloudSyncReady : Bool
  sessionExpired : Bool
  -- CloudSyncGate refs
  initialized : Bool
  -- localStorage
  durable : Option AppSnapshot      -- app_state_v1 (saveState / clearState)
  pending : Option AppSnapshot      -- Pending-Change Buffer
  lock : Option Int                 -- app.syncLock
  welcomeSeenKey : Bool             -- app.welcomeSeen.v1
  wasAuthenticated : Bool           -- app.wasAuthenticated === 'true'
  lastAuthEmail : Option String     -- app.lastAuthEmail
  lastAuthProvider : Option String  -- app.lastAuthProvider
  oauthTransition : Option Int      -- app.oauthTransition
  pendingOtp : Option Int           -- auth.pendingOtpVerification
  onboardingCompleted : Bool        -- app.onboarding.completed.v2 === 'true'
  onboardingTimestamp : Option Int  -- app.onboarding.timestamp.v2
deriving DecidableEq, Repr

/-- `getSnapshot` (app.store.ts lines 108-115): always emits the literal
schema version 1 together with the two observed mutable fields. -/
def getSnapshot (w : World) : AppSnapshot :=
  { schemaVersion := 1, welcomeSeen := some w.welcomeSeen, security := w.security }

/-- Default security settings used where the store falls back. -/
def defaultSecurity : SecuritySettings := ⟨false, none⟩

/-- The app-state projection of the whole store object, as persisted by
`saveState(get())` / `saveState(next)` calls that pass the full store. -/
def storeAsSnapshot (w : World) : AppSnapshot :=
  ⟨w.schemaVersion, some w.welcomeSeen, w.security⟩

/-- `setWelcomeSeen` (app.store.ts lines 85-92): writes or removes the
`app.welcomeSeen.v1` key, updates the in-memory flag, then persists the
store. -/
def setWelcomeSeen (v : Bool) (w : World) : World :=
  let w1 := { w with welcomeSeenKey := v, welcomeSeen := v }
  { w1 with durable := some (storeAsSnapshot w1) }

/-- `replaceAllData` (app.store.ts lines 157-174): persists the input
normalized to schema version 1, mirrors a defined `welcomeSeen` to its
localStorage key, and installs the normalized fields in memory (with
access-layer defaults for absent fields). -/
def replaceAllData (data : AppSnapshot) (w : World) : World :=
  let normalized : AppSnapshot := { data with schemaVersion := 1 }
  let w1 := { w with durable := some normalized }
  let w2 := match data.welcomeSeen with
    | some b => { w1 with welcomeSeenKey := b }
    | none => w1
  { w2 with
      schemaVersion := 1,
      welcomeSeen := data.welcomeSeen.getD false,
      security := some (data.security.getD defaultSecurity) }

/-- `toggleBiometricAuth` (app.store.ts lines 122-135). -/
def toggleBiometricAuth (w : World) : World :=
  let sec : SecuritySettings :=
    { biometricEnabled := !((w.security.map (·.biometricEnabled)).getD false),
      lastAuthTimestamp := w.security.bind (·.lastAuthTimestamp) }
  let w1 := { w with schemaVersion := 1, security := some sec }
  { w1 with durable := some (storeAsSnapshot w1) }

/-- `updateLastAuthTimestamp` (app.store.ts lines 137-150). -/
def updateLastAuthTimestamp (now : Int) (w : World) : World :=
  let sec : SecuritySettings :=
    { biometricEnabled := (w.security.map (·.biometricEnabled)).getD false,
      lastAuthTimestamp := some now }
  let w1 := { w with schemaVersion := 1, security := some sec }
  { w1 with durable := some (storeAsSnapshot w1) }

/-- Remote or collaborator interactions a code path performs, in order. -/
inductive Eff where
  | upsertCloud (s : AppSnapshot)   -- upsertCloudState(snapshot)
  | getCloud                        -- getCloudState()
  | fetchSubscription               -- getSubscription(userId)
  | initPush                        -- initializePushNotifications()
  | signInAnon                      -- supabase.auth.signInAnonymously()
  | authSignOut                     -- supabase.auth.signOut()
  | reload                          -- window.location.reload()
  | deactivateToken                 -- deactivateToken()
  | cleanupPush                     -- cleanupPushNotifications()
  | clearSubCache                   -- clearSubscriptionCache()
  | scheduleRetryInit               -- HMR branch: delayed getSession retry
deriving DecidableEq, Repr

/-- Environment of one `pushSnapshot` call: what `getNetworkStatus()`
settles to, what the remote upsert settles to, and `navigator.onLine` at
classification time. -/
structure PushEnv where
  online : Bool
  upsert : Except ErrSig Unit
  navOnline : Bool
deriving Repr

/-- `pushSnapshot` (CloudSyncGate.tsx lines 88-106). The function catches
every failure of the upsert, so it is total: each branch ends in a status
update with the snapshot either delivered or buffered. -/
def pushSnapshot (env : PushEnv) (snap : AppSnapshot) (w : World) :
    World × List Eff :=
  if env.online = false then
    ({ w with cloudStatus := .offline, pending := some snap }, [])
  else
    match env.upsert with
    | .ok _ =>
        ({ w with cloudStatus := .ok, pending := none }, [.upsertCloud snap])
    | .error e =>
        ({ w with
            cloudStatus :=
              if isNetworkOrServerError env.navOnline e then .offline else .error,
            pending := some snap },
         [.upsertCloud snap])

/-- A Supabase session user as far as CloudSyncGate reads it (the derived
display name, avatar and provider lookups are folded into single fields). -/
structure Session where
  userId : String
  email : Option String
  isAnonymous : Bool
  name : Option String
  avatarUrl : Option String
  provider : Option String
deriving DecidableEq, Repr

/-- The parsed cached `sb-*-auth-token` blob inspected in the
offline-at-startup branch; `user` is `currentSession?.user || session.user`. -/
structure CachedData where
  user : Option Session
deriving DecidableEq, Repr

/-- `setUser` argument built from a session (CloudSyncGate.tsx
lines 296-301 and 149-154). -/
def userFromSession (s : Session) : UserInfo :=
  ⟨s.email, s.name, s.avatarUrl, s.provider⟩

/-- Environment of one `initForSession` run: the values the successive
collaborator calls settle to. -/
structure InitEnv where
  isOnline : Bool                      -- getNetworkStatus() at entry
  cachedSession : Option CachedData    -- parsed sb-*-auth-token (offline path)
  session : Option Session             -- getSession() result or fallback
  now : Int                            -- Date.now()
  dev : Bool                           -- import.meta.env.DEV
  anonSignIn : Except ErrSig Unit      -- signInAnonymously()
  online2 : Bool                       -- getNetworkStatus() before the sync
  pull : Except ErrSig (Option AppSnapshot)  -- getCloudState()
  seedUpsert : Except ErrSig Unit      -- upsertCloudState(localSnapshot)
  navOnline : Bool                     -- navigator.onLine in the catch
  pushEnv : PushEnv                    -- environment of the inner pushSnapshot
deriving Repr

/-- The `try { ... } finally { releaseSyncLock() }` section of
`initForSession` (CloudSyncGate.tsx lines 330-394), entered with the lock
held. Every exit path goes through the `finally`, so the lock slot of the
returned world is cleared. -/
def syncSection (env : InitEnv) (w : World) : World × List Eff :=
  let w0 := { w with cloudStatus := .syncing }
  match w0.pending with
  | some p =>
      let r := pushSnapshot env.pushEnv p w0
      ({ r.1 with initialized := true, lock := releaseSyncLock r.1.lock }, r.2)
  | none =>
      match env.pull with
      | .error e =>
          ({ w0 with
              cloudStatus :=
                if isNetworkOrServerError env.navOnline e then .offline else .error,
              pending := some (getSnapshot w0),
              initialized := true, cloudSyncReady := true,
              lock := releaseSyncLock w0.lock },
           [.getCloud])
      | .ok (some cloud) =>
          let w1 :=
            if w0.onboardingCompleted = false ∧ cloud.welcomeSeen.getD false = true then
              { w0 with onboardingCompleted := true,
                        onboardingTimestamp := some env.now }
            else w0
          let w2 := replaceAllData cloud w1
          let w3 := updateLastAuthTimestamp env.now w2
          ({ w3 with cloudStatus := .ok, initialized := true,
                     cloudSyncReady := true,
                     lock := releaseSyncLock w3.lock },
           [.getCloud, .fetchSubscription, .initPush])
      | .ok none =>
          let localSnapshot := getSnapshot w0
          match env.seedUpsert with
          | .ok _ =>
              let w1 := updateLastAuthTimestamp env.now w0
              ({ w1 with cloudStatus := .ok, initialized := true,
                         cloudSyncReady := true,
                         lock := releaseSyncLock w1.lock },
               [.getCloud, .upsertCloud localSnapshot, .initPush])
          | .error e =>
              ({ w0 with
                  cloudStatus :=
                    if isNetworkOrServerError env.navOnline e then .offline else .error,
                  pending := some (getSnapshot w0),
                  initialized := true, cloudSyncReady := true,
                  lock := releaseSyncLock w0.lock },
               [.getCloud, .upsertCloud localSnapshot])

/-- The session-found tail of `initForSession` (CloudSyncGate.tsx
lines 289-394): install identity and breadcrumbs, enter cloud mode,
re-check connectivity, then take the lock and run the sync section. -/
def initSessionFound (env : InitEnv) (s : Session) (w : World) :
    World × List Eff :=
  let w1 := { w with user := userFromSession s }
  let w2 :=
    if s.email.isSome = true ∧ s.isAnonymous = false then
      { w1 with wasAuthenticated := true, lastAuthEmail := s.email,
                lastAuthProvider :=
                  match s.provider with
                  | some p => some p
                  | none => w1.lastAuthProvider }
    else w1
  let w3 := { w2 with cloudMode := .cloud }
  if env.online2 = false then
    ({ w3 with cloudStatus := .offline, pending := some (getSnapshot w3),
               initialized := true, cloudSyncReady := true }, [])
  else
    let acq := acquireSyncLock env.now w3.lock
    let w4 := { w3 with lock := acq.2 }
    if acq.1 = false then
      ({ w4 with cloudStatus := .ok, initialized := true,
                 cloudSyncReady := true }, [])
    else
      syncSection env w4

/-- The no-session branch of `initForSession` (CloudSyncGate.tsx
lines 214-287). -/
def initNoSession (env : InitEnv) (w : World) : World × List Eff :=
  if w.wasAuthenticated = true then
    ({ w with sessionExpired := true, cloudMode := .guest,
              cloudStatus := .idle, initialized := true,
              cloudSyncReady := true }, [])
  else
    if env.dev = true ∧ w.cloudMode = .cloud ∧ w.user.email.isSome = true then
      (w, [.scheduleRetryInit])
    else
      let w1 :=
        if w.cloudMode = .cloud ∧ w.user.email.isSome = true then
          let wA := { w with pending := none, durable := none }
          let wB := replaceAllData ⟨1, none, none⟩ wA
          setWelcomeSeen false { wB with welcomeSeenKey := false }
        else w
      let w2 := { w1 with user := nullUser }
      match env.anonSignIn with
      | .ok _ => (w2, [.signInAnon])
      | .error _ =>
          ({ w2 with cloudMode := .guest, cloudStatus := .idle,
                     initialized := false, cloudSyncReady := true },
           [.signInAnon])

/-- `initForSession` (CloudSyncGate.tsx lines 108-395). -/
def initForSession (env : InitEnv) (w : World) : World × List Eff :=
  if env.isOnline = false then
    match env.cachedSession with
    | some cd =>
        let w1 := { w with cloudMode := .cloud }
        let w2 :=
          match cd.user with
          | some u =>
              if u.isAnonymous = false then { w1 with user := userFromSession u }
              else w1
          | none => w1
        ({ w2 with cloudStatus := .offline, initialized := true,
                   cloudSyncReady := true }, [])
    | none =>
        ({ w with cloudMode := .guest, cloudStatus := .offline,
                  initialized := true, cloudSyncReady := true }, [])
  else
    match env.session with
    | some s =>
        match w.pendingOtp with
        | some t =>
            if env.now - t > 10 * 60 * 1000 then
              ({ w with pendingOtp := none }, [.authSignOut, .reload])
            else initSessionFound env s w
        | none => initSessionFound env s w
    | none => initNoSession env w

/-- Environment of one SIGNED_OUT handler run. -/
structure SignOutEnv where
  now : Int
  anonSignIn : Except ErrSig Unit
deriving Repr

/-- The SIGNED_OUT handler after the OAuth-transition guard
(CloudSyncGate.tsx lines 464-515). -/
def handleSignedOutTail (env : SignOutEnv) (w : World) : World × List Eff :=
  if w.wasAuthenticated = true then
    ({ w with sessionExpired := true, cloudMode := .guest,
              cloudStatus := .idle }, [])
  else
    let w1 := { w with pending := none, durable := none }
    let w2 := replaceAllData ⟨1, none, none⟩ w1
    let w3 := setWelcomeSeen false { w2 with welcomeSeenKey := false }
    let w4 := { w3 with user := nullUser, cloudMode := .guest,
                        cloudStatus := .idle, initialized := false }
    match env.anonSignIn with
    | .ok _ =>
        (w4, [.deactivateToken, .cleanupPush, .clearSubCache, .signInAnon])
    | .error _ =>
        ({ w4 with cloudSyncReady := true },
         [.deactivateToken, .cleanupPush, .clearSubCache, .signInAnon])

/-- The SIGNED_OUT branch of the auth listener (CloudSyncGate.tsx
lines 453-516): skip everything during a recent OAuth transition, otherwise
run the sign-out tail. -/
def handleSignedOut (env : SignOutEnv) (w : World) : World × List Eff :=
  match w.oauthTransition with
  | some t =>
      if env.now - t < 120000 then (w, [])
      else handleSignedOutTail env { w with oauthTransition := none }
  | none => handleSignedOutTail env w

/-- The network listener (CloudSyncGate.tsx lines 402-422): `onOnline`
pushes the pending snapshot when initialized, `onOffline` buffers the
current snapshot and sets the status offline. -/
def handleNetworkChange (penv : PushEnv) (isOnline : Bool) (w : World) :
    World × List Eff :=
  if isOnline = true then
    if w.initialized = false then (w, [])
    else
      match w.pending with
      | some p => pushSnapshot penv p w
      | none => (w, [])
  else
    ({ w with cloudStatus := .offline, pending := some (getSnapshot w) }, [])

/-! ### Shared concrete values used by witnesses and counterexamples -/

/-- A concrete snapshot. -/
def sampleSnap : AppSnapshot := ⟨1, some true, some ⟨true, some 42⟩⟩

/-- A concrete world in cloud mode with an empty buffer and no lock. -/
def sampleWorld : World :=
  { schemaVersion := 1, welcomeSeen := false, security := some defaultSecurity,
    user := nullUser, cloudMode := .cloud, cloudStatus := .ok,
    cloudSyncReady := true, sessionExpired := false, initialized := true,
    durable := none, pending := none, lock := none, welcomeSeenKey := false,
    wasAuthenticated := false, lastAuthEmail := none, lastAuthProvider := none,
    oauthTransition := none, pendingOtp := none, onboardingCompleted := false,
    onboardingTimestamp := none }

/-! ### C5: lock acquisition -/

/-- Claim C5: `acquireSyncLock` succeeds iff no lock record with age
strictly below 5000 ms exists; on success the slot is overwritten with the
current time, on failure it is left untouched. -/
theorem acquireSyncLock_spec (now : Int) (lock : Option Int) :
    ((acquireSyncLock now lock).1 = true ↔
      ∀ t, lock = some t → SYNC_LOCK_TIMEOUT ≤ now - t) ∧
    ((acquireSyncLock now lock).2 =
      if (acquireSyncLock now lock).1 = true then some now else lock) := by
  cases lock with
  | none => simp [acquireSyncLock]
  | some t =>
      by_cases h : now - t < SYNC_LOCK_TIMEOUT <;>
        (simp [acquireSyncLock, h]; try omega)

/-- Claim C5 witness: an aged-out lock (age 8000 ms) is reclaimed with the
new timestamp written; a fresh lock (age 1000 ms) blocks acquisition. -/
theorem acquireSyncLock_spec_witness :
    (acquireSyncLock 10000 (some 2000)).1 = true ∧
    (acquireSyncLock 10000 (some 2000)).2 = some 10000 ∧
    (acquireSyncLock 10000 (some 9000)).1 = false := by
  have h1 := acquireSyncLock_spec 10000 (some 2000)
  have h2 := acquireSyncLock_spec 10000 (some 9000)
  have a1 : (acquireSyncLock 10000 (some 2000)).1 = true :=
    h1.1.mpr (by intro t ht; cases ht; decide)
  refine ⟨a1, ?_, ?_⟩
  · rw [h1.2, a1]; simp
  · by_contra hfalse
    have hb : (acquireSyncLock 10000 (some 9000)).1 = true := by
      revert hfalse; cases (acquireSyncLock 10000 (some 9000)).1 <;> simp
    have := h2.1.mp hb 9000 rfl
    revert this; decide

/-! ### C6: failure classifier -/

/-- Claim C6: the failure classifier reports connectivity/server-transient
iff the browser is offline, the lowercased message contains one of the
network-failure patterns, or the numeric HTTP status lies in [500, 600). -/
theorem isNetworkOrServerError_spec (navOnline : Bool) (e : ErrSig) :
    isNetworkOrServerError navOnline e = true ↔
      (navOnline = false ∨
       (∃ p ∈ networkErrorPatterns, strIncludes e.message.toLower p = true) ∨
       (∃ s, e.status = some s ∧ 500 ≤ s ∧ s < 600)) := by
  obtain ⟨msg, st⟩ := e
  cases st with
  | none =>
      simp [isNetworkOrServerError, List.any_eq_true, Bool.not_eq_true']
  | some s =>
      simp [isNetworkOrServerError, List.any_eq_true, Bool.not_eq_true',
            Bool.and_eq_true, decide_eq_true_eq, and_assoc, or_assoc]

/-! ### C9: durable-store load validation -/

/-- A persisted record carrying schema version 2, mismatching the current
supported value 1. -/
def mismatchedRecord : StoredRecord := ⟨some 2, none, none⟩

/-- Claim C9 counterexample: a persisted record whose schema version is a
nonzero value other than 1 is returned by `loadState` as-is, not treated as
absent — the load validation is a truthiness check, not an equality check
against the supported version. -/
theorem loadState_mismatch_counterexample :
    loadState (.record mismatchedRecord) = some mismatchedRecord ∧
    mismatchedRecord.schemaVersion ≠ some 1 := by
  constructor
  · rfl
  · decide

/-- Claim C9 (amended): `loadState` returns absent when the key is missing,
when parsing fails, and when the schema-version field is missing or zero
(falsy); a record with any nonzero schema version — matching the supported
value or not — is returned unchanged. The function is total, so no failure
escapes to the caller. -/
theorem loadState_spec (r : StoredRecord) :
    loadState .absent = none ∧
    loadState .malformed = none ∧
    (r.schemaVersion = none → loadState (.record r) = none) ∧
    (r.schemaVersion = some 0 → loadState (.record r) = none) ∧
    (∀ v, r.schemaVersion = some v → v ≠ 0 →
      loadState (.record r) = some r) := by
  refine ⟨rfl, rfl, ?_, ?_, ?_⟩
  · intro h; simp [loadState, jsTruthyVersion, h]
  · intro h; simp [loadState, jsTruthyVersion, h]
  · intro v hv hne; simp [loadState, jsTruthyVersion, hv, hne]

/-- Claim C9 witness: a falsy version record is rejected and a version-1
record is returned. -/
theorem loadState_spec_witness :
    loadState (.record ⟨some 0, none, none⟩) = none ∧
    loadState (.record ⟨some 1, none, none⟩) =
      some ⟨some 1, none, none⟩ := by
  have h0 := loadState_spec ⟨some 0, none, none⟩
  have h1 := loadState_spec ⟨some 1, none, none⟩
  exact ⟨h0.2.2.2.1 rfl, h1.2.2.2.2 1 rfl (by decide)⟩

/-! ### C10: schema-version-1 invariant of the store operations -/

/-- Claim C10: every snapshot-producing or snapshot-installing operation of
the in-memory store yields schema version exactly 1 regardless of the
input, and `replaceAllData` normalizes the persisted copy as well. -/
theorem store_schemaVersion_one (w : World) (data : AppSnapshot) (now : Int) :
    (getSnapshot w).schemaVersion = 1 ∧
    (replaceAllData data w).schemaVersion = 1 ∧
    (replaceAllData data w).durable = some { data with schemaVersion := 1 } ∧
    (toggleBiometricAuth w).schemaVersion = 1 ∧
    (updateLastAuthTimestamp now w).schemaVersion = 1 := by
  refine ⟨rfl, rfl, ?_, rfl, rfl⟩
  obtain ⟨sv, ws, sec⟩ := data
  cases ws <;> rfl

/-- Helper: a push with connectivity and a successful upsert clears the
buffer and sets status ok. -/
theorem pushSnapshot_push_ok (penv : PushEnv) (p : AppSnapshot) (w : World)
    (ho : penv.online = true) (hu : penv.upsert = .ok ()) :
    (pushSnapshot penv p w).1.pending = none ∧
    (pushSnapshot penv p w).1.cloudStatus = .ok := by
  simp [pushSnapshot, ho, hu]

/-! ### C1: push algorithm -/

/-- Claim C1: `pushSnapshot` never drops the snapshot and never escapes
with an exception (it is a total function): offline entry buffers the
snapshot, sets status offline and makes no remote call; a successful upsert
clears the buffer and sets status ok; a failed upsert buffers the exact
snapshot and sets status offline for transient failures, error otherwise. -/
theorem pushSnapshot_spec (env : PushEnv) (snap : AppSnapshot) (w : World) :
    (env.online = false →
      (pushSnapshot env snap w).1.cloudStatus = .offline ∧
      (pushSnapshot env snap w).1.pending = some snap ∧
      (pushSnapshot env snap w).2 = []) ∧
    (env.online = true → env.upsert = .ok () →
      (pushSnapshot env snap w).1.cloudStatus = .ok ∧
      (pushSnapshot env snap w).1.pending = none) ∧
    (∀ e, env.online = true → env.upsert = .error e →
      (pushSnapshot env snap w).1.pending = some snap ∧
      (pushSnapshot env snap w).1.cloudStatus =
        (if isNetworkOrServerError env.navOnline e then
          CloudStatus.offline else CloudStatus.error)) := by
  obtain ⟨online, upsert, nav⟩ := env
  refine ⟨?_, ?_, ?_⟩
  · intro h; subst h; simp [pushSnapshot]
  · intro h hu; subst h; subst hu; simp [pushSnapshot]
  · intro e h hu; subst h; subst hu; simp [pushSnapshot]

/-- Claim C1 witness: concrete offline and successful-upsert runs. -/
theorem pushSnapshot_spec_witness :
    (pushSnapshot ⟨false, .ok (), true⟩ sampleSnap sampleWorld).1.cloudStatus
        = .offline ∧
    (pushSnapshot ⟨false, .ok (), true⟩ sampleSnap sampleWorld).2 = [] ∧
    (pushSnapshot ⟨true, .ok (), true⟩ sampleSnap sampleWorld).1.pending
        = none := by
  have h1 := pushSnapshot_spec ⟨false, .ok (), true⟩ sampleSnap sampleWorld
  have h2 := pushSnapshot_spec ⟨true, .ok (), true⟩ sampleSnap sampleWorld
  exact ⟨(h1.1 rfl).1, (h1.1 rfl).2.2, (h2.2.1 rfl rfl).2⟩

/-! ### C8: connectivity-transition listener -/

/-- A world that is not yet initialized but already holds a pending
change (reachable: the offline listener buffers unconditionally, and
`initializedRef` is false before initialization finishes). -/
def uninitPendingWorld : World :=
  { sampleWorld with initialized := false, pending := some sampleSnap,
                     cloudStatus := .error }

/-- Claim C8 counterexample: a reported transition to online with a
Pending Change present but the engine not initialized triggers no push at
all — the world is unchanged and no remote call is made, contradicting
"every reported connectivity transition to online while a Pending Change
is present triggers an automatic push". -/
theorem online_uninitialized_counterexample :
    uninitPendingWorld.pending = some sampleSnap ∧
    handleNetworkChange ⟨true, .ok (), true⟩ true uninitPendingWorld
      = (uninitPendingWorld, []) := by
  exact ⟨rfl, rfl⟩

/-- Claim C8 (amended): while the engine is initialized, a reported
transition to online with a Pending Change present invokes the push
algorithm on that pending snapshot (so a connectivity-confirmed successful
upsert clears the buffer and sets status ok); a transition to online
before initialization is ignored; every reported transition to offline
sets status offline and buffers the current snapshot. -/
theorem handleNetworkChange_spec (penv : PushEnv) (w : World)
    (p : AppSnapshot) :
    (w.initialized = true → w.pending = some p →
      handleNetworkChange penv true w = pushSnapshot penv p w) ∧
    (w.initialized = true → w.pending = some p → penv.online = true →
      penv.upsert = .ok () →
      (handleNetworkChange penv true w).1.pending = none ∧
      (handleNetworkChange penv true w).1.cloudStatus = .ok) ∧
    (w.initialized = false → handleNetworkChange penv true w = (w, [])) ∧
    ((handleNetworkChange penv false w).1.cloudStatus = .offline ∧
     (handleNetworkChange penv false w).1.pending = some (getSnapshot w)) := by
  refine ⟨?_, ?_, ?_, ?_, ?_⟩
  · intro hi hp; simp [handleNetworkChange, hi, hp]
  · intro hi hp ho hu
    have hrw : handleNetworkChange penv true w = pushSnapshot penv p w := by
      simp [handleNetworkChange, hi, hp]
    rw [hrw]
    exact (pushSnapshot_push_ok penv p w ho hu)
  · intro hi; simp [handleNetworkChange, hi]
  · simp [handleNetworkChange]
  · simp [handleNetworkChange]

/-- Claim C8 witness: concrete initialized-online-with-pending run pushes
and clears the buffer; concrete offline run buffers. -/
theorem handleNetworkChange_spec_witness :
    (handleNetworkChange ⟨true, .ok (), true⟩ true
        { sampleWorld with pending := some sampleSnap }).1.pending = none ∧
    (handleNetworkChange ⟨true, .ok (), true⟩ false sampleWorld).1.cloudStatus
        = .offline := by
  have h := handleNetworkChange_spec ⟨true, .ok (), true⟩
    { sampleWorld with pending := some sampleSnap } sampleSnap
  have h2 := handleNetworkChange_spec ⟨true, .ok (), true⟩ sampleWorld sampleSnap
  exact ⟨(h.2.1 rfl rfl rfl rfl).1, h2.2.2.2.1⟩

/-! ### C2: sign-out handling -/

/-- A world representing a previously-authenticated user: the
`app.wasAuthenticated` breadcrumb is set, with local data, a pending
change, and the onboarding flag present. -/
def authWorld : World :=
  { sampleWorld with wasAuthenticated := true, pending := some sampleSnap,
                     durable := some sampleSnap, welcomeSeenKey := true,
                     welcomeSeen := true }

/-- Claim C2 counterexample: a SIGNED_OUT event while the
was-previously-authenticated breadcrumb is present performs no wipe at all
— the durable store, the pending buffer and the onboarding flag are left
untouched and no anonymous session is requested; the handler instead
flags the session as expired and drops to guest/idle. -/
theorem signedOut_breadcrumb_counterexample :
    authWorld.wasAuthenticated = true ∧
    (handleSignedOut ⟨0, .ok ()⟩ authWorld).1.pending = some sampleSnap ∧
    (handleSignedOut ⟨0, .ok ()⟩ authWorld).1.durable = some sampleSnap ∧
    (handleSignedOut ⟨0, .ok ()⟩ authWorld).1.welcomeSeenKey = true ∧
    (handleSignedOut ⟨0, .ok ()⟩ authWorld).2 = [] ∧
    (handleSignedOut ⟨0, .ok ()⟩ authWorld).1.sessionExpired = true := by
  exact ⟨rfl, rfl, rfl, rfl, rfl, rfl⟩

/-- Claim C2 (amended): outside a recent OAuth transition, a SIGNED_OUT
event with the was-previously-authenticated breadcrumb present is treated
as session expiry: the session-expired flag is set, mode becomes guest and
status idle, and nothing is wiped. The full wipe — local state reset to the
default schema-version-1 document, durable store and pending buffer
cleared then rewritten with the default document, onboarding flag cleared,
identity nulled, and a new anonymous session requested — happens on a
SIGNED_OUT event with the breadcrumb absent. -/
theorem handleSignedOut_spec (env : SignOutEnv) (w : World)
    (hoauth : ∀ t, w.oauthTransition = some t → env.now - t ≥ 120000) :
    (w.wasAuthenticated = true →
      (handleSignedOut env w).1.sessionExpired = true ∧
      (handleSignedOut env w).1.cloudMode = .guest ∧
      (handleSignedOut env w).1.cloudStatus = .idle ∧
      (handleSignedOut env w).1.pending = w.pending ∧
      (handleSignedOut env w).1.durable = w.durable ∧
      (handleSignedOut env w).1.welcomeSeenKey = w.welcomeSeenKey ∧
      (handleSignedOut env w).2 = []) ∧
    (w.wasAuthenticated = false →
      (handleSignedOut env w).1.schemaVersion = 1 ∧
      (handleSignedOut env w).1.welcomeSeen = false ∧
      (handleSignedOut env w).1.security = some defaultSecurity ∧
      (handleSignedOut env w).1.pending = none ∧
      (handleSignedOut env w).1.durable
        = some ⟨1, some false, some defaultSecurity⟩ ∧
      (handleSignedOut env w).1.welcomeSeenKey = false ∧
      (handleSignedOut env w).1.user = nullUser ∧
      (handleSignedOut env w).1.cloudMode = .guest ∧
      (handleSignedOut env w).1.cloudStatus = .idle ∧
      Eff.signInAnon ∈ (handleSignedOut env w).2) := by
  have hred : handleSignedOut env w
      = handleSignedOutTail env
          (match w.oauthTransition with
           | some _ => { w with oauthTransition := none }
           | none => w) := by
    unfold handleSignedOut
    cases ht : w.oauthTransition with
    | none => rfl
    | some t =>
        have := hoauth t ht
        have hlt : ¬(env.now - t < 120000) := by omega
        simp [hlt]
  constructor
  · intro hwa
    rw [hred]
    cases ht : w.oauthTransition <;>
      · simp only []
        unfold handleSignedOutTail
        simp [hwa]
  · intro hwa
    rw [hred]
    cases ht : w.oauthTransition <;>
      · simp only []
        unfold handleSignedOutTail
        simp only [hwa]
        cases env.anonSignIn <;>
          simp [setWelcomeSeen, replaceAllData, storeAsSnapshot,
                defaultSecurity, nullUser]

/-- Claim C2 witness: a concrete breadcrumb-absent sign-out wipes and
requests an anonymous session; uses a world with local data present. -/
theorem handleSignedOut_spec_witness :
    (handleSignedOut ⟨0, .ok ()⟩
        { authWorld with wasAuthenticated := false }).1.pending = none ∧
    (handleSignedOut ⟨0, .ok ()⟩
        { authWorld with wasAuthenticated := false }).1.welcomeSeenKey
      = false ∧
    Eff.signInAnon ∈
      (handleSignedOut ⟨0, .ok ()⟩
        { authWorld with wasAuthenticated := false }).2 := by
  have h := handleSignedOut_spec ⟨0, .ok ()⟩
    { authWorld with wasAuthenticated := false }
    (by intro t ht; exact Option.noConfusion ht)
  exact ⟨(h.2 rfl).2.2.2.1, (h.2 rfl).2.2.2.2.2.1, (h.2 rfl).2.2.2.2.2.2.2.2.2⟩

/-! ### Helpers about `initForSession` shared by several theorems -/

/-- Helper: with connectivity at entry, a session, and no expired OTP
breadcrumb, `initForSession` runs its session-found tail. -/
theorem initForSession_reduces (env : InitEnv) (s : Session) (w : World)
    (h1 : env.isOnline = true) (h2 : env.session = some s)
    (h3 : ∀ t, w.pendingOtp = some t → env.now - t ≤ 600000) :
    initForSession env w = initSessionFound env s w := by
  obtain ⟨on1, cs, sess, now, dev, anon, on2, pull, seed, nav, penv⟩ := env
  simp only at h1 h2 h3
  subst h1; subst h2
  unfold initForSession
  rw [if_neg (by simp)]
  dsimp only
  cases hpo : w.pendingOtp with
  | none => rfl
  | some t =>
      have ht := h3 t hpo
      dsimp only
      rw [if_neg (by omega)]

/-- Helper: every exit path of the locked sync section goes through the
`finally` release, so the returned lock slot is empty. -/
theorem syncSection_lock (env : InitEnv) (w : World) :
    (syncSection env w).1.lock = none := by
  unfold syncSection
  cases hp : w.pending with
  | some p => simp [hp, releaseSyncLock]
  | none =>
      cases hl : env.pull with
      | error e => simp [hp, hl, releaseSyncLock]
      | ok oc =>
          cases oc with
          | some cloud => simp [hp, hl, releaseSyncLock]
          | none =>
              cases hs : env.seedUpsert <;>
                simp [hp, hl, hs, releaseSyncLock]

/-- Helper: on acquisition failure, `acquireSyncLock` leaves the slot
untouched. -/
theorem acquireSyncLock_false_snd (now : Int) (lock : Option Int)
    (h : (acquireSyncLock now lock).1 = false) :
    (acquireSyncLock now lock).2 = lock := by
  cases lock with
  | none => simp [acquireSyncLock] at h
  | some t =>
      by_cases hlt : now - t < SYNC_LOCK_TIMEOUT
      · simp [acquireSyncLock, hlt]
      · simp [acquireSyncLock, hlt] at h

/-- Helper: with a pending snapshot in the buffer, the sync section pushes
it and never pulls. -/
theorem syncSection_pending_effects (env : InitEnv) (w : World)
    (p : AppSnapshot) (hp : w.pending = some p) :
    Eff.getCloud ∉ (syncSection env w).2 ∧
    (env.pushEnv.online = true → (syncSection env w).2 = [.upsertCloud p]) ∧
    (env.pushEnv.online = false →
      (syncSection env w).1.pending = some p ∧
      (syncSection env w).1.cloudStatus = .offline) := by
  unfold syncSection
  simp only [hp]
  refine ⟨?_, ?_, ?_⟩
  · cases ho : env.pushEnv.online with
    | false => simp [pushSnapshot, ho]
    | true =>
        cases hu : env.pushEnv.upsert <;> simp [pushSnapshot, ho, hu]
  · intro ho
    cases hu : env.pushEnv.upsert <;> simp [pushSnapshot, ho, hu]
  · intro ho
    simp [pushSnapshot, ho]

/-- Helper: with an empty buffer, the sync section pulls from the cloud. -/
theorem syncSection_nopending_pulls (env : InitEnv) (w : World)
    (hp : w.pending = none) :
    Eff.getCloud ∈ (syncSection env w).2 := by
  unfold syncSection
  simp only [hp]
  cases hl : env.pull with
  | error e => simp
  | ok oc =>
      cases oc with
      | some cloud => simp
      | none => cases hs : env.seedUpsert <;> simp [hs]

/-! ### C3: lock discipline -/

/-- A world holding a pending change with no lock record present. -/
def pendingWorld : World := { sampleWorld with pending := some sampleSnap }

/-- Claim C3 counterexample: an online-transition push attempt performs
the remote upsert while the lock slot is empty at entry, never writes it,
and leaves it empty — so a push attempt runs a remote upsert without the
Cross-Context Mutual-Exclusion Lock ever being acquired or held. -/
theorem push_without_lock_counterexample :
    pendingWorld.lock = none ∧
    (handleNetworkChange ⟨true, .ok (), true⟩ true pendingWorld).2
      = [.upsertCloud sampleSnap] ∧
    (handleNetworkChange ⟨true, .ok (), true⟩ true pendingWorld).1.lock
      = none := by
  exact ⟨rfl, rfl, rfl⟩

/-- Claim C3 (amended): only the reconciliation sync section of
`initForSession` takes the lock; once acquired there, it is released
unconditionally on every exit path (pending-push early return, pull,
seed push, thrown error) before the function returns, and an acquisition
failure leaves the foreign lock untouched with no remote work done.
`pushSnapshot` itself never touches the lock: pushes running outside the
reconciliation perform the remote upsert without holding it. -/
theorem syncLock_discipline (env : InitEnv) (s : Session) (w : World)
    (h1 : env.isOnline = true) (h2 : env.session = some s)
    (h3 : ∀ t, w.pendingOtp = some t → env.now - t ≤ 600000)
    (h4 : env.online2 = true) :
    ((acquireSyncLock env.now w.lock).1 = true →
      (initForSession env w).1.lock = none) ∧
    ((acquireSyncLock env.now w.lock).1 = false →
      (initForSession env w).1.lock = w.lock ∧
      (initForSession env w).2 = []) ∧
    (∀ penv snap w2, (pushSnapshot penv snap w2).1.lock = w2.lock) := by
  have hred := initForSession_reduces env s w h1 h2 h3
  refine ⟨?_, ?_, ?_⟩
  · intro hacq
    rw [hred]
    unfold initSessionFound
    rw [if_neg (by simp [h4])]
    by_cases hc : s.email.isSome = true ∧ s.isAnonymous = false
    · rw [if_pos hc]
      dsimp only
      rw [if_neg (by simp [hacq])]
      exact syncSection_lock _ _
    · rw [if_neg hc]
      dsimp only
      rw [if_neg (by simp [hacq])]
      exact syncSection_lock _ _
  · intro hacq
    rw [hred]
    unfold initSessionFound
    rw [if_neg (by simp [h4])]
    have hsnd := acquireSyncLock_false_snd env.now w.lock hacq
    by_cases hc : s.email.isSome = true ∧ s.isAnonymous = false
    · rw [if_pos hc]
      dsimp only
      rw [if_pos hacq]
      exact ⟨hsnd, rfl⟩
    · rw [if_neg hc]
      dsimp only
      rw [if_pos hacq]
      exact ⟨hsnd, rfl⟩
  · intro penv snap w2
    obtain ⟨o, up, nv⟩ := penv
    cases o with
    | false => rfl
    | true => cases up <;> rfl

/-- A concrete non-anonymous session. -/
def sampleSession : Session :=
  ⟨"user-1", some "user@example.com", false, some "User", none, some "google"⟩

/-- A concrete environment: online, a session present, lock-timeout-old
lock age, a pull that finds no cloud row, all collaborator calls succeed. -/
def sampleInitEnv : InitEnv :=
  { isOnline := true, cachedSession := none, session := some sampleSession,
    now := 10000, dev := false, anonSignIn := .ok (), online2 := true,
    pull := .ok none, seedUpsert := .ok (), navOnline := true,
    pushEnv := ⟨true, .ok (), true⟩ }

/-- Claim C3 witness: a concrete run through the sync section acquires the
free lock and returns with the lock slot cleared. -/
theorem syncLock_discipline_witness :
    (acquireSyncLock 10000 sampleWorld.lock).1 = true ∧
    (initForSession sampleInitEnv sampleWorld).1.lock = none := by
  have h := syncLock_discipline sampleInitEnv sampleSession sampleWorld
    rfl rfl (by intro t ht; exact Option.noConfusion ht) rfl
  exact ⟨by decide, h.1 (by decide)⟩

/-! ### C4: offline reconciliation -/

/-- An environment in which the app starts offline with a cached
non-anonymous session artifact. -/
def offlineCachedEnv : InitEnv :=
  { isOnline := false, cachedSession := some ⟨some sampleSession⟩,
    session := none, now := 0, dev := false, anonSignIn := .ok (),
    online2 := false, pull := .ok none, seedUpsert := .ok (),
    navOnline := false, pushEnv := ⟨false, .ok (), false⟩ }

/-- Claim C4 counterexample: when the app starts offline and the session
is recovered from cached artifacts, mode becomes cloud and status offline
but the in-memory snapshot is NOT written to the Pending-Change Buffer —
the buffer stays empty. -/
theorem offline_start_no_buffer_counterexample :
    (initForSession offlineCachedEnv sampleWorld).1.cloudMode = .cloud ∧
    (initForSession offlineCachedEnv sampleWorld).1.cloudStatus = .offline ∧
    (initForSession offlineCachedEnv sampleWorld).1.pending = none ∧
    (initForSession offlineCachedEnv sampleWorld).2 = [] := by
  exact ⟨rfl, rfl, rfl, rfl⟩

/-- Claim C4 (amended): when a session resolves online but connectivity is
absent at the pre-sync re-check, mode becomes cloud, status offline, the
current in-memory snapshot is written to the Pending-Change Buffer and no
remote call is attempted; when the app starts offline with cached session
artifacts, mode becomes cloud and status offline with no remote call, but
the buffer is left unchanged (no snapshot is written). -/
theorem initForSession_offline_spec (env env2 : InitEnv) (s : Session)
    (w w2 : World) (cd : CachedData)
    (h1 : env.isOnline = true) (h2 : env.session = some s)
    (h3 : ∀ t, w.pendingOtp = some t → env.now - t ≤ 600000)
    (h4 : env.online2 = false)
    (h5 : env2.isOnline = false) (h6 : env2.cachedSession = some cd) :
    ((initForSession env w).1.cloudMode = .cloud ∧
     (initForSession env w).1.cloudStatus = .offline ∧
     (initForSession env w).1.pending = some (getSnapshot w) ∧
     (initForSession env w).2 = []) ∧
    ((initForSession env2 w2).1.cloudMode = .cloud ∧
     (initForSession env2 w2).1.cloudStatus = .offline ∧
     (initForSession env2 w2).1.pending = w2.pending ∧
     (initForSession env2 w2).2 = []) := by
  constructor
  · rw [initForSession_reduces env s w h1 h2 h3]
    unfold initSessionFound
    rw [if_pos h4]
    by_cases hc : s.email.isSome = true ∧ s.isAnonymous = false
    · rw [if_pos hc]
      exact ⟨rfl, rfl, rfl, rfl⟩
    · rw [if_neg hc]
      exact ⟨rfl, rfl, rfl, rfl⟩
  · unfold initForSession
    rw [if_pos h5, h6]
    dsimp only
    cases hu : cd.user with
    | none => exact ⟨rfl, rfl, rfl, rfl⟩
    | some u =>
        dsimp only
        by_cases hb : u.isAnonymous = false
        · rw [if_pos hb]
          exact ⟨rfl, rfl, rfl, rfl⟩
        · rw [if_neg hb]
          exact ⟨rfl, rfl, rfl, rfl⟩

/-- Claim C4 witness: concrete runs of both offline paths. -/
theorem initForSession_offline_spec_witness :
    (initForSession { sampleInitEnv with online2 := false }
        sampleWorld).1.pending = some (getSnapshot sampleWorld) ∧
    (initForSession offlineCachedEnv sampleWorld).1.cloudStatus
      = .offline := by
  have h := initForSession_offline_spec
    { sampleInitEnv with online2 := false } offlineCachedEnv
    sampleSession sampleWorld sampleWorld ⟨some sampleSession⟩
    rfl rfl (by intro t ht; exact Option.noConfusion ht) rfl rfl rfl
  exact ⟨h.1.2.2.1, h.2.2.1⟩

/-! ### C7: pending-push priority over pull -/

/-- Claim C7: once the lock is acquired in reconciliation, an existing
Pending Change is pushed and the function exits without pulling the remote
snapshot (no pull call is made; with connectivity the pending snapshot is
upserted, without connectivity it stays buffered with status offline); the
remote pull happens exactly when no Pending Change exists. -/
theorem initForSession_pending_priority (env : InitEnv) (s : Session)
    (w : World)
    (h1 : env.isOnline = true) (h2 : env.session = some s)
    (h3 : ∀ t, w.pendingOtp = some t → env.now - t ≤ 600000)
    (h4 : env.online2 = true)
    (h5 : (acquireSyncLock env.now w.lock).1 = true) :
    (∀ p, w.pending = some p →
      Eff.getCloud ∉ (initForSession env w).2 ∧
      (env.pushEnv.online = true →
        (initForSession env w).2 = [.upsertCloud p]) ∧
      (env.pushEnv.online = false →
        (initForSession env w).1.pending = some p ∧
        (initForSession env w).1.cloudStatus = .offline)) ∧
    (w.pending = none → Eff.getCloud ∈ (initForSession env w).2) := by
  have hred := initForSession_reduces env s w h1 h2 h3
  have hsync : ∃ w4 : World, initForSession env w = syncSection env w4 ∧
      w4.pending = w.pending := by
    rw [hred]
    unfold initSessionFound
    rw [if_neg (by simp [h4])]
    by_cases hc : s.email.isSome = true ∧ s.isAnonymous = false
    · rw [if_pos hc]
      dsimp only
      rw [if_neg (by simp [h5])]
      exact ⟨_, rfl, rfl⟩
    · rw [if_neg hc]
      dsimp only
      rw [if_neg (by simp [h5])]
      exact ⟨_, rfl, rfl⟩
  obtain ⟨w4, heq, hpend⟩ := hsync
  rw [heq]
  constructor
  · intro p hp
    exact syncSection_pending_effects env w4 p (hpend.trans hp)
  · intro hp
    exact syncSection_nopending_pulls env w4 (hpend.trans hp)

/-- Claim C7 witness: with a pending snapshot and the lock free, the
concrete run pushes the pending snapshot and never pulls; with an empty
buffer it pulls. -/
theorem initForSession_pending_priority_witness :
    (initForSession sampleInitEnv pendingWorld).2
      = [.upsertCloud sampleSnap] ∧
    Eff.getCloud ∈ (initForSession sampleInitEnv sampleWorld).2 := by
  have h1 := initForSession_pending_priority sampleInitEnv sampleSession
    pendingWorld rfl rfl (by intro t ht; exact Option.noConfusion ht) rfl
    (by decide)
  have h2 := initForSession_pending_priority sampleInitEnv sampleSession
    sampleWorld rfl rfl (by intro t ht; exact Option.noConfusion ht) rfl
    (by decide)
  exact ⟨(h1.1 sampleSnap rfl).2.1 rfl, h2.2 rfl⟩

end BaselineApp
